import Mathlib

/-!
Verification of the WebUSB transport layer (trezorlib/transport/webusb.py).

The Python module is shallowly embedded: the stateful `WebUsbHandle` methods
become pure functions from a handle state (plus an explicit model of the Bus
Driver, i.e. the usb1 library) to a result together with the post state and
the list of bus-level actions performed.  Python exceptions become an error
type; byte strings become `List Nat`; the indefinite read loop is indexed by
fuel, with `none` meaning the loop has not yet terminated within that fuel.
-/

namespace WebUsb

/-- Bytes of a chunk; Python `bytes` is modelled as a list of byte values. -/
abbrev Bytes := List Nat

/-- Errors raised by the module.  `transportException msg` models
`TransportException(msg)` (the spec calls the chunk-size instance of it
`ChunkSizeError`); `ioError args` models `IOError(*args)` (the spec calls it
`DeviceOpenError`); `assertionError` models a failed `assert`;
`usbErr code` models a propagated usb1 error from `claimInterface`. -/
inductive TrezorError where
  | assertionError : TrezorError
  | transportException (msg : String) : TrezorError
  | ioError (args : List String) : TrezorError
  | usbErr (code : Nat) : TrezorError
deriving DecidableEq, Repr

/-- Outcome of the `dev.getProduct()` liveness probe during enumeration:
either the product string, or the raised usb1 error — the specific
`USBErrorNotSupported`, or any other usb1 error identified by a code. -/
inductive ProbeResult where
  | ok (product : String) : ProbeResult
  | errNotSupported : ProbeResult
  | err (code : Nat) : ProbeResult
deriving DecidableEq, Repr

/-- A bus-level device descriptor as the module consumes it (usb1.USBDevice).
`settingClass` is the USB class returned by
`dev[0][INTERFACE][0].getClass()`, i.e. configuration 0, interface 0,
alt-setting 0; `productProbe` is what `dev.getProduct()` does when called. -/
structure USBDevice where
  vendorId : Nat
  productId : Nat
  busNumber : Nat
  portNumberList : List Nat
  settingClass : Nat
  productProbe : ProbeResult
deriving DecidableEq, Repr

/-- DEV_TREZOR1 = (0x534c, 0x0001) -/
def DEV_TREZOR1 : Nat × Nat := (0x534c, 0x0001)

/-- DEV_TREZOR2 = (0x1209, 0x53c1) -/
def DEV_TREZOR2 : Nat × Nat := (0x1209, 0x53c1)

/-- DEV_TREZOR2_BL = (0x1209, 0x53c0) -/
def DEV_TREZOR2_BL : Nat × Nat := (0x1209, 0x53c0)

/-- INTERFACE = 0 -/
def INTERFACE : Nat := 0

/-- ENDPOINT = 1 -/
def ENDPOINT : Nat := 1

/-- DEBUG_INTERFACE = 1 -/
def DEBUG_INTERFACE : Nat := 1

/-- DEBUG_ENDPOINT = 2 -/
def DEBUG_ENDPOINT : Nat := 2

/-- LIBUSB_CLASS_VENDOR_SPEC = 0xff -/
def LIBUSB_CLASS_VENDOR_SPEC : Nat := 0xff

/-- State of a `WebUsbHandle`.  `handle` models the field
`self.handle : Optional[usb1.USBDeviceHandle]`; an opened usb1 device handle
is identified by a number.  `handle = none` is the Closed state. -/
structure WebUsbHandle where
  device : USBDevice
  interface : Nat
  endpoint : Nat
  count : Nat
  handle : Option Nat
deriving DecidableEq, Repr

/-- `WebUsbHandle.__init__(device, debug)`. -/
def WebUsbHandle.init (device : USBDevice) (debug : Bool) : WebUsbHandle :=
  { device := device
    interface := if debug then DEBUG_INTERFACE else INTERFACE
    endpoint := if debug then DEBUG_ENDPOINT else ENDPOINT
    count := 0
    handle := none }

/-- The Open state: the `handle` field holds a usb1 device handle. -/
def WebUsbHandle.isOpen (h : WebUsbHandle) : Bool :=
  h.handle.isSome

/-- Bus-level actions the handle performs against the Bus Driver. -/
inductive BusAction where
  | interruptWrite (endpoint : Nat) (data : Bytes) : BusAction
  | releaseInterface (iface : Nat) : BusAction
  | closeHandle : BusAction
deriving DecidableEq, Repr

/-- The udev remediation hint used by `open` on Linux. -/
def udevHint : String :=
  "Do you have udev rules installed? https://github.com/trezor/trezor-common/blob/master/udev/51-trezor.rules"

/-- Python `s.startswith(pre)`: the characters of `pre` are a prefix of the
characters of `s`. -/
def startswith (s pre : String) : Bool :=
  pre.data.isPrefixOf s.data

/-- `WebUsbHandle.open`.  `platform` models `sys.platform`; `devOpen` models
the result of `self.device.open()` (a handle or None); `claim` models
`handle.claimInterface(iface)` (unit or a raised usb1 error code).  The
returned pair is the Python result (normal return or raised error) together
with the post state of the handle.  Note the source assigns `self.handle`
from `self.device.open()` before the None check and before claiming. -/
def WebUsbHandle.open (platform : String) (devOpen : Option Nat)
    (claim : Nat → Nat → Except Nat Unit) (h : WebUsbHandle) :
    Except TrezorError Unit × WebUsbHandle :=
  let h' := { h with handle := devOpen }
  match devOpen with
  | none =>
      let args := if startswith platform "linux" then [udevHint] else []
      (.error (.ioError ("Cannot open device" :: args)), h')
  | some u =>
      match claim u h.interface with
      | .ok _ => (.ok (), h')
      | .error c => (.error (.usbErr c), h')

/-- `WebUsbHandle.close`.  Releasing the interface and closing the usb1
handle are bus actions; the spec (§6) treats them as non-failing Bus Driver
primitives, and the source adds no error handling of its own.  Returns the
post state and the actions performed. -/
def WebUsbHandle.close (h : WebUsbHandle) : WebUsbHandle × List BusAction :=
  match h.handle with
  | some _ =>
      ({ h with handle := none },
       [.releaseInterface h.interface, .closeHandle])
  | none => ({ h with handle := none }, [])

/-- `WebUsbHandle.write_chunk`.  Returns the Python result (normal return,
`TransportException`, or a failed assert when the handle is not Open)
together with the bus actions performed. -/
def WebUsbHandle.write_chunk (h : WebUsbHandle) (chunk : Bytes) :
    Except TrezorError Unit × List BusAction :=
  match h.handle with
  | none => (.error .assertionError, [])
  | some _ =>
      if chunk.length ≠ 64 then
        (.error (.transportException
          ("Unexpected chunk size: " ++ toString chunk.length)), [])
      else
        (.ok (), [.interruptWrite h.endpoint chunk])

/-- The `while True` read loop of `read_chunk`: `r i` is the buffer the i-th
call of `self.handle.interruptRead(endpoint, 64)` returns; `fuel` bounds the
number of iterations modelled, `none` meaning the loop is still running.
Each empty read is followed by `time.sleep(0.001)` and a retry. -/
def read_loop (r : Nat → Bytes) : Nat → Nat → Option Bytes
  | _, 0 => none
  | i, fuel + 1 => if (r i).isEmpty then read_loop r (i + 1) fuel else some (r i)

/-- `WebUsbHandle.read_chunk`.  `read ep i` is the buffer returned by the
i-th `interruptRead(ep, 64)` call on endpoint `ep`; the loop reads from
`0x80 ||| self.endpoint` (the device-to-host direction bit set).  `none`
means the loop has not terminated within `fuel` iterations. -/
def WebUsbHandle.read_chunk (h : WebUsbHandle) (read : Nat → Nat → Bytes)
    (fuel : Nat) : Option (Except TrezorError Bytes) :=
  match h.handle with
  | none => some (.error .assertionError)
  | some _ =>
      let ep := 0x80 ||| h.endpoint
      match read_loop (read ep) 0 fuel with
      | none => none
      | some chunk =>
          if chunk.length ≠ 64 then
            some (.error (.transportException
              ("Unexpected chunk size: " ++ toString chunk.length)))
          else
            some (.ok chunk)

/-- `is_trezor1(dev)`. -/
def is_trezor1 (dev : USBDevice) : Bool :=
  (dev.vendorId, dev.productId) == DEV_TREZOR1

/-- `is_trezor2(dev)`. -/
def is_trezor2 (dev : USBDevice) : Bool :=
  (dev.vendorId, dev.productId) == DEV_TREZOR2

/-- `is_trezor2_bl(dev)`. -/
def is_trezor2_bl (dev : USBDevice) : Bool :=
  (dev.vendorId, dev.productId) == DEV_TREZOR2_BL

/-- `is_vendor_class(dev)`: class of configuration 0, interface `INTERFACE`,
alt-setting 0 equals `LIBUSB_CLASS_VENDOR_SPEC`. -/
def is_vendor_class (dev : USBDevice) : Bool :=
  dev.settingClass == LIBUSB_CLASS_VENDOR_SPEC

/-- The Device Identity classification of the spec (§3): Target-Normal,
Target-Bootloader or Unsupported, a pure function of (vendor ID, product
ID). -/
inductive DeviceIdentity where
  | targetNormal : DeviceIdentity
  | targetBootloader : DeviceIdentity
  | unsupported : DeviceIdentity
deriving DecidableEq, Repr

/-- `classify`, assembled from the source predicates `is_trezor1`,
`is_trezor2` and `is_trezor2_bl`. -/
def classify (dev : USBDevice) : DeviceIdentity :=
  if is_trezor1 dev then .targetNormal
  else if is_trezor2 dev then .targetNormal
  else if is_trezor2_bl dev then .targetBootloader
  else .unsupported

/-- Modelled from the spec: the Framing Protocol (external module
`transport.protocol`, not part of the core source) exposes a read-only
integer `VERSION`; nothing else of it is consumed by this layer. -/
structure Protocol where
  VERSION : Nat
deriving DecidableEq, Repr

/-- The shape of `get_protocol(handle, is_trezor2(device))` from the external
`transport.protocol` module: some function from the Chunk Handle and the
version-2-capable hint to a Protocol.  The embedding is parametric in it. -/
abbrev GetProtocol := WebUsbHandle → Bool → Protocol

/-- `WebUsbTransport` state: the descriptor, the Chunk Handle, the debug
flag and the Framing Protocol instance. -/
structure WebUsbTransport where
  device : USBDevice
  handle : WebUsbHandle
  debug : Bool
  protocol : Protocol
deriving DecidableEq, Repr

/-- `WebUsbTransport.__init__(device, handle=None, debug=False)`: when no
handle is given a fresh `WebUsbHandle(device, debug)` is constructed, and
`get_protocol(handle, is_trezor2(device))` builds the protocol. -/
def WebUsbTransport.init (gp : GetProtocol) (device : USBDevice)
    (handle : Option WebUsbHandle) (debug : Bool) : WebUsbTransport :=
  let h := match handle with
    | none => WebUsbHandle.init device debug
    | some h0 => h0
  { device := device, handle := h, debug := debug
    protocol := gp h (is_trezor2 device) }

/-- `'%03i' % n`: decimal, zero-padded to a minimum width of 3. -/
def format03 (n : Nat) : String :=
  if n < 10 then "00" ++ toString n
  else if n < 100 then "0" ++ toString n
  else toString n

/-- Python `':'.join(strs)`. -/
def colonJoin : List String → String
  | [] => ""
  | [s] => s
  | s :: rest => s ++ ":" ++ colonJoin rest

/-- `dev_to_str(dev)`: colon-join of the zero-padded bus number and the port
numbers. -/
def dev_to_str (dev : USBDevice) : String :=
  colonJoin (format03 dev.busNumber :: dev.portNumberList.map toString)

/-- `WebUsbTransport.get_path`: `PATH_PREFIX` (the string webusb), a colon,
then `dev_to_str` of the descriptor. -/
def WebUsbTransport.get_path (t : WebUsbTransport) : String :=
  "webusb" ++ ":" ++ dev_to_str t.device

/-- `WebUsbTransport.enumerate`, applied to the descriptor list the Bus
Driver context yields (devices erroring during iteration are already
skipped by `getDeviceIterator(skip_on_error=True)`).  A descriptor failing
the VID/PID filter or the vendor-class filter is skipped; the liveness probe
`dev.getProduct()` then runs: on success a Transport is appended, the
specific `USBErrorNotSupported` is swallowed, any other error propagates out
of the whole call. -/
def WebUsbTransport.enumerate (gp : GetProtocol) :
    List USBDevice → Except Nat (List WebUsbTransport)
  | [] => .ok []
  | dev :: rest =>
      if ¬(is_trezor1 dev || is_trezor2 dev || is_trezor2_bl dev) then
        WebUsbTransport.enumerate gp rest
      else if ¬is_vendor_class dev then
        WebUsbTransport.enumerate gp rest
      else
        match dev.productProbe with
        | .ok _ =>
            match WebUsbTransport.enumerate gp rest with
            | .ok ts => .ok (WebUsbTransport.init gp dev none false :: ts)
            | .error c => .error c
        | .errNotSupported => WebUsbTransport.enumerate gp rest
        | .err c => .error c

/-- `WebUsbTransport.find_debug`: on protocol VERSION ≥ 2 a new Transport
over the same device sharing this Chunk Handle; otherwise (VERSION 1) a new
Transport over the same device with `debug=True`, hence a freshly
constructed debug Chunk Handle. -/
def WebUsbTransport.find_debug (gp : GetProtocol) (t : WebUsbTransport) :
    WebUsbTransport :=
  if t.protocol.VERSION ≥ 2 then
    WebUsbTransport.init gp t.device (some t.handle) false
  else
    WebUsbTransport.init gp t.device none true

/-! Concrete fixtures used by witnesses. -/

/-- A concrete supported descriptor (TREZOR One VID/PID, vendor-specific
interface class, successful liveness probe). -/
def devT1 : USBDevice :=
  { vendorId := 0x534c, productId := 0x0001, busNumber := 7,
    portNumberList := [2, 1], settingClass := LIBUSB_CLASS_VENDOR_SPEC,
    productProbe := .ok "TREZOR" }

/-- A concrete handle over `devT1` in the Open state, normal interface
selection. -/
def handleOpenT1 : WebUsbHandle :=
  { device := devT1, interface := INTERFACE, endpoint := ENDPOINT,
    count := 0, handle := some 0 }

/-! Theorems for the claims. -/

/-- C1: on an Open handle, `write_chunk` fails with a `ChunkSizeError`
(`TransportException`) naming the actual length for every input whose
length is not 64, and for a 64-byte input it succeeds performing exactly
one interrupt write to the handle endpoint. -/
theorem write_chunk_contract (h : WebUsbHandle) (u : Nat) (chunk : Bytes)
    (hopen : h.handle = some u) :
    (chunk.length ≠ 64 →
      h.write_chunk chunk =
        (.error (.transportException
          ("Unexpected chunk size: " ++ toString chunk.length)), [])) ∧
    (chunk.length = 64 →
      h.write_chunk chunk = (.ok (), [.interruptWrite h.endpoint chunk])) := by
  constructor <;> intro hlen <;>
    simp [WebUsbHandle.write_chunk, hopen, hlen]

/-- Witness for C1 at a concrete Open handle, a 64-byte input and a 63-byte
input. -/
theorem write_chunk_contract_witness :
    handleOpenT1.handle = some 0 ∧
    handleOpenT1.write_chunk (List.replicate 64 0) =
      (.ok (), [.interruptWrite handleOpenT1.endpoint (List.replicate 64 0)]) ∧
    handleOpenT1.write_chunk (List.replicate 63 0) =
      (.error (.transportException "Unexpected chunk size: 63"), []) :=
  ⟨rfl,
   (write_chunk_contract handleOpenT1 0 (List.replicate 64 0) rfl).2 (by simp),
   (write_chunk_contract handleOpenT1 0 (List.replicate 63 0) rfl).1 (by simp)⟩

/-- C10: `write_chunk` validates the length before touching the bus — for a
wrong-length input it fails with the `ChunkSizeError` and performs no bus
action at all, so the device sees nothing and the handle state is
untouched. -/
theorem write_chunk_no_bus_on_bad_length (h : WebUsbHandle) (u : Nat)
    (chunk : Bytes) (hopen : h.handle = some u) (hlen : chunk.length ≠ 64) :
    (h.write_chunk chunk).1 =
      .error (.transportException
        ("Unexpected chunk size: " ++ toString chunk.length)) ∧
    (h.write_chunk chunk).2 = [] := by
  simp [WebUsbHandle.write_chunk, hopen, hlen]

/-- Witness for C10 at a concrete Open handle and a 65-byte input. -/
theorem write_chunk_no_bus_on_bad_length_witness :
    handleOpenT1.handle = some 0 ∧ (List.replicate 65 0).length ≠ 64 ∧
    (handleOpenT1.write_chunk (List.replicate 65 0)).1 =
      .error (.transportException "Unexpected chunk size: 65") ∧
    (handleOpenT1.write_chunk (List.replicate 65 0)).2 = [] :=
  ⟨rfl, by simp,
   (write_chunk_no_bus_on_bad_length handleOpenT1 0 (List.replicate 65 0) rfl
      (by simp)).1,
   (write_chunk_no_bus_on_bad_length handleOpenT1 0 (List.replicate 65 0) rfl
      (by simp)).2⟩

/-- C2 counterexample: the claim says the handle remains Closed whenever
opening or claiming fails, but when the underlying device open returns a
handle and `claimInterface` then fails, `open` propagates the error while
the handle field is already assigned — the handle is not Closed. -/
theorem open_claim_failure_not_closed :
    ((WebUsbHandle.open "linux" (some 5) (fun _ _ => .error 3)
        (WebUsbHandle.init devT1 false)).1 ≠ .ok ()) ∧
    ((WebUsbHandle.open "linux" (some 5) (fun _ _ => .error 3)
        (WebUsbHandle.init devT1 false)).2.handle ≠ none) :=
  ⟨fun hcon => by simp [WebUsbHandle.open, WebUsbHandle.init] at hcon,
   fun hcon => by simp [WebUsbHandle.open, WebUsbHandle.init] at hcon⟩

/-- C2 (amended): when the underlying device open returns no handle,
`open` raises `DeviceOpenError` (`IOError`) with the udev hint on Linux and
a generic message elsewhere and the state stays Closed; on a successful
open and claim the state becomes Open; when claiming fails after a
successful underlying open, the claim error propagates but the handle field
is already set, so the state is not Closed. -/
theorem open_state_spec (platform : String) (devOpen : Option Nat)
    (claim : Nat → Nat → Except Nat Unit) (h : WebUsbHandle) :
    (devOpen = none →
      WebUsbHandle.open platform devOpen claim h =
        (.error (.ioError ("Cannot open device" ::
            (if startswith platform "linux" then [udevHint] else []))),
         { h with handle := none })) ∧
    (∀ u, devOpen = some u → claim u h.interface = .ok () →
      WebUsbHandle.open platform devOpen claim h =
        (.ok (), { h with handle := some u })) ∧
    (∀ u c, devOpen = some u → claim u h.interface = .error c →
      WebUsbHandle.open platform devOpen claim h =
        (.error (.usbErr c), { h with handle := some u })) := by
  refine ⟨fun hd => ?_, fun u hd hc => ?_, fun u c hd hc => ?_⟩
  · subst hd; simp [WebUsbHandle.open]
  · subst hd; simp [WebUsbHandle.open, hc]
  · subst hd; simp [WebUsbHandle.open, hc]

/-- C5: `close` is idempotent and raises nothing: its result state is
always Closed, a second `close` is a no-op performing no bus action, an
Open handle releases the claimed interface and closes the usb1 handle, a
Closed handle performs nothing. -/
theorem close_idempotent (h : WebUsbHandle) :
    h.close.1.handle = none ∧
    h.close.1.close = (h.close.1, []) ∧
    (∀ u, h.handle = some u →
      h.close = ({ h with handle := none },
                 [.releaseInterface h.interface, .closeHandle])) ∧
    (h.handle = none → h.close = (h, [])) := by
  obtain ⟨dev, itf, ep, cnt, hd⟩ := h
  cases hd <;> simp [WebUsbHandle.close]

/-- Witness for C5 at a concrete Open handle: closing releases and closes,
the state ends Closed, and a second close is a silent no-op. -/
theorem close_idempotent_witness :
    handleOpenT1.close = ({ handleOpenT1 with handle := none },
        [.releaseInterface handleOpenT1.interface, .closeHandle]) ∧
    handleOpenT1.close.1.handle = none ∧
    handleOpenT1.close.1.close = (handleOpenT1.close.1, []) :=
  ⟨(close_idempotent handleOpenT1).2.2.1 0 rfl,
   (close_idempotent handleOpenT1).1,
   (close_idempotent handleOpenT1).2.1⟩

/-- The read loop returns the first non-empty buffer: with `N` empty reads
and a non-empty buffer on read `N`, fuel `N + 1` suffices and yields that
buffer. -/
lemma read_loop_first (r : Nat → Bytes) :
    ∀ N i, (∀ j, j < N → r (i + j) = []) → r (i + N) ≠ [] →
      read_loop r i (N + 1) = some (r (i + N)) := by
  intro N
  induction N with
  | zero =>
      intro i _ hne
      simp only [read_loop, Nat.add_zero] at *
      simp [List.isEmpty_iff, hne]
  | succ N ih =>
      intro i hempty hne
      have h0 : r i = [] := by simpa using hempty 0 (Nat.succ_pos N)
      have hstep : ∀ j, j < N → r (i + 1 + j) = [] := by
        intro j hj
        have := hempty (j + 1) (by omega)
        simpa [Nat.add_comm, Nat.add_left_comm, Nat.add_assoc] using this
      have hne' : r (i + 1 + N) ≠ [] := by
        have : i + 1 + N = i + (N + 1) := by omega
        rw [this]; exact hne
      have hih := ih (i + 1) hstep hne'
      have hunf : read_loop r i (N + 1 + 1) =
          if (r i).isEmpty then read_loop r (i + 1) (N + 1) else some (r i) :=
        rfl
      rw [hunf, h0]
      simp only [List.isEmpty_nil, if_true]
      have harg : i + 1 + N = i + (N + 1) := by omega
      rw [harg] at hih
      exact hih

/-- The read loop never terminates when every read is empty. -/
lemma read_loop_all_empty (r : Nat → Bytes) (hall : ∀ j, r j = []) :
    ∀ fuel i, read_loop r i fuel = none := by
  intro fuel
  induction fuel with
  | zero => intro i; simp [read_loop]
  | succ fuel ih => intro i; simp [read_loop, hall i, ih]

/-- C3: on an Open handle, when the endpoint read is empty for the first
`N` calls and call `N` yields a non-empty buffer, `read_chunk` returns that
buffer if it has exactly 64 bytes, and otherwise fails with the
`ChunkSizeError` naming the buffer length. -/
theorem read_chunk_first_nonempty (h : WebUsbHandle) (u : Nat)
    (read : Nat → Nat → Bytes) (N : Nat) (buf : Bytes)
    (hopen : h.handle = some u)
    (hempty : ∀ j, j < N → read (0x80 ||| h.endpoint) j = [])
    (hN : read (0x80 ||| h.endpoint) N = buf) (hne : buf ≠ []) :
    h.read_chunk read (N + 1) =
      some (if buf.length = 64 then .ok buf
            else .error (.transportException
              ("Unexpected chunk size: " ++ toString buf.length))) := by
  have hloop := read_loop_first (read (0x80 ||| h.endpoint)) N 0
      (by intro j hj; simpa using hempty j hj)
      (by simpa [hN] using hne)
  simp only [Nat.zero_add, hN] at hloop
  by_cases hb : buf.length = 64 <;>
    simp [WebUsbHandle.read_chunk, hopen, hloop, hb]

/-- A simulated Bus Driver read stream: empty for the first `n` calls, then
always the buffer `good`. -/
def readSim (good : Bytes) (n : Nat) : Nat → Nat → Bytes :=
  fun _ j => if j < n then [] else good

/-- Witness for C3: two empty reads then a 64-byte buffer yields that
buffer; an immediate 30-byte buffer yields the `ChunkSizeError` naming
30. -/
theorem read_chunk_first_nonempty_witness :
    handleOpenT1.handle = some 0 ∧
    (∀ j, j < 2 →
      readSim (List.replicate 64 1) 2 (0x80 ||| handleOpenT1.endpoint) j = []) ∧
    handleOpenT1.read_chunk (readSim (List.replicate 64 1) 2) 3 =
      some (.ok (List.replicate 64 1)) ∧
    handleOpenT1.read_chunk (readSim (List.replicate 30 1) 0) 1 =
      some (.error (.transportException "Unexpected chunk size: 30")) :=
  ⟨rfl, fun j hj => by simp [readSim, hj],
   by
    simpa using read_chunk_first_nonempty handleOpenT1 0
      (readSim (List.replicate 64 1) 2) 2 (List.replicate 64 1) rfl
      (fun j hj => by simp [readSim, hj]) (by simp [readSim]) (by simp),
   by
    simpa using read_chunk_first_nonempty handleOpenT1 0
      (readSim (List.replicate 30 1) 0) 0 (List.replicate 30 1) rfl
      (fun j hj => by omega) (by simp [readSim]) (by simp)⟩

/-- C4: on an Open handle the read loop terminates exactly when some read
yields a non-empty buffer: if any call returns non-empty, some finite fuel
makes `read_chunk` return; if every call returns empty, no fuel does — the
loop runs forever, there is no built-in timeout. -/
theorem read_chunk_total_iff (h : WebUsbHandle) (u : Nat)
    (read : Nat → Nat → Bytes) (hopen : h.handle = some u) :
    ((∃ n, read (0x80 ||| h.endpoint) n ≠ []) →
      ∃ fuel r, h.read_chunk read fuel = some r) ∧
    ((∀ n, read (0x80 ||| h.endpoint) n = []) →
      ∀ fuel, h.read_chunk read fuel = none) := by
  constructor
  · intro hex
    set N := Nat.find hex with hNdef
    have hN : read (0x80 ||| h.endpoint) N ≠ [] := Nat.find_spec hex
    have hempty : ∀ j, j < N → read (0x80 ||| h.endpoint) j = [] := by
      intro j hj
      have := Nat.find_min hex hj
      simpa using this
    have hloop := read_loop_first (read (0x80 ||| h.endpoint)) N 0
        (fun j hj => by simpa using hempty j hj) (by simpa using hN)
    simp only [Nat.zero_add] at hloop
    refine ⟨N + 1,
      if (read (0x80 ||| h.endpoint) N).length = 64 then
        .ok (read (0x80 ||| h.endpoint) N)
      else .error (.transportException
        ("Unexpected chunk size: " ++
          toString (read (0x80 ||| h.endpoint) N).length)), ?_⟩
    by_cases hb : (read (0x80 ||| h.endpoint) N).length = 64 <;>
      simp [WebUsbHandle.read_chunk, hopen, hloop, hb]
  · intro hall fuel
    have hloop := read_loop_all_empty (read (0x80 ||| h.endpoint)) hall fuel 0
    simp [WebUsbHandle.read_chunk, hopen, hloop]

/-- Witness for C4: a stream that turns non-empty at call 2 terminates with
some fuel; the all-empty stream yields `none` at every fuel. -/
theorem read_chunk_total_iff_witness :
    (∃ fuel r,
      handleOpenT1.read_chunk (readSim (List.replicate 64 1) 2) fuel = some r) ∧
    (∀ fuel, handleOpenT1.read_chunk (fun _ _ => []) fuel = none) :=
  ⟨(read_chunk_total_iff handleOpenT1 0 (readSim (List.replicate 64 1) 2)
      rfl).1 ⟨2, by simp [readSim]⟩,
   (read_chunk_total_iff handleOpenT1 0 (fun _ _ => []) rfl).2 (fun _ => rfl)⟩

/-- Witness for C2 (amended): a Linux no-handle open fails Closed with the
udev hint, a non-Linux successful open and claim ends Open. -/
theorem open_state_spec_witness :
    WebUsbHandle.open "linux" none (fun _ _ => .ok ())
        (WebUsbHandle.init devT1 false) =
      (.error (.ioError ("Cannot open device" ::
          (if startswith "linux" "linux" then [udevHint] else []))),
       { WebUsbHandle.init devT1 false with handle := none }) ∧
    WebUsbHandle.open "win32" (some 5) (fun _ _ => .ok ())
        (WebUsbHandle.init devT1 false) =
      (.ok (), { WebUsbHandle.init devT1 false with handle := some 5 }) :=
  ⟨(open_state_spec "linux" none (fun _ _ => .ok ())
      (WebUsbHandle.init devT1 false)).1 rfl,
   (open_state_spec "win32" (some 5) (fun _ _ => .ok ())
      (WebUsbHandle.init devT1 false)).2.1 5 rfl rfl⟩

/-- A concrete Framing Protocol constructor for witnesses. -/
def gpA : GetProtocol := fun _ _ => ⟨1⟩

/-- `classify` yields Unsupported exactly when none of the three VID/PID
predicates of the source holds. -/
lemma classify_eq_unsupported_iff (dev : USBDevice) :
    classify dev = .unsupported ↔
      (is_trezor1 dev || is_trezor2 dev || is_trezor2_bl dev) = false := by
  unfold classify
  by_cases h1 : is_trezor1 dev <;> by_cases h2 : is_trezor2 dev <;>
    by_cases h3 : is_trezor2_bl dev <;> simp [h1, h2, h3]

/-- C6: for a candidate that passed the VID/PID and vendor-class filters,
a liveness probe raising the specific not-supported condition drops the
candidate silently — enumeration continues as if it were absent — while a
probe raising any other error makes `enumerate` propagate that error. -/
theorem enumerate_probe_errors (gp : GetProtocol) (dev : USBDevice)
    (rest : List USBDevice)
    (hsup : classify dev ≠ .unsupported) (hvc : is_vendor_class dev = true) :
    (dev.productProbe = .errNotSupported →
      WebUsbTransport.enumerate gp (dev :: rest) =
        WebUsbTransport.enumerate gp rest) ∧
    (∀ c, dev.productProbe = .err c →
      WebUsbTransport.enumerate gp (dev :: rest) = .error c) := by
  have hb : (is_trezor1 dev || is_trezor2 dev || is_trezor2_bl dev) = true := by
    by_contra hfalse
    exact hsup ((classify_eq_unsupported_iff dev).2 (by simpa using hfalse))
  constructor
  · intro hp
    simp [WebUsbTransport.enumerate, hb, hvc, hp]
  · intro c hp
    simp [WebUsbTransport.enumerate, hb, hvc, hp]

/-- A matching, vendor-class candidate whose probe raises the specific
not-supported condition (the ghost-enumeration artifact). -/
def devGhost : USBDevice :=
  { vendorId := 0x1209, productId := 0x53c1, busNumber := 3,
    portNumberList := [4], settingClass := LIBUSB_CLASS_VENDOR_SPEC,
    productProbe := .errNotSupported }

/-- A matching, vendor-class candidate whose probe raises some other usb1
error (code 7). -/
def devBroken : USBDevice :=
  { vendorId := 0x1209, productId := 0x53c1, busNumber := 3,
    portNumberList := [5], settingClass := LIBUSB_CLASS_VENDOR_SPEC,
    productProbe := .err 7 }

/-- Witness for C6: the ghost candidate is silently skipped, the candidate
with a different probe error makes enumeration fail with that error. -/
theorem enumerate_probe_errors_witness :
    classify devGhost ≠ .unsupported ∧ is_vendor_class devGhost = true ∧
    WebUsbTransport.enumerate gpA [devGhost] =
      WebUsbTransport.enumerate gpA [] ∧
    WebUsbTransport.enumerate gpA [devBroken] = .error 7 :=
  ⟨by decide, by decide,
   (enumerate_probe_errors gpA devGhost [] (by decide) (by decide)).1 rfl,
   (enumerate_probe_errors gpA devBroken [] (by decide) (by decide)).2 7 rfl⟩

/-- C7: with three descriptors — a supported vendor-class one with a
successful probe, a supported non-vendor-class one, and one with
unsupported VID/PID — `enumerate` returns exactly one Transport, built
over the first descriptor. -/
theorem enumerate_filters (gp : GetProtocol) (d1 d2 d3 : USBDevice)
    (s : String)
    (h1a : classify d1 ≠ .unsupported) (h1b : is_vendor_class d1 = true)
    (h1c : d1.productProbe = .ok s)
    (h2a : classify d2 ≠ .unsupported) (h2b : is_vendor_class d2 = false)
    (h3 : classify d3 = .unsupported) :
    WebUsbTransport.enumerate gp [d1, d2, d3] =
      .ok [WebUsbTransport.init gp d1 none false] := by
  have hb1 : (is_trezor1 d1 || is_trezor2 d1 || is_trezor2_bl d1) = true := by
    by_contra hfalse
    exact h1a ((classify_eq_unsupported_iff d1).2 (by simpa using hfalse))
  have hb2 : (is_trezor1 d2 || is_trezor2 d2 || is_trezor2_bl d2) = true := by
    by_contra hfalse
    exact h2a ((classify_eq_unsupported_iff d2).2 (by simpa using hfalse))
  have hb3 : (is_trezor1 d3 || is_trezor2 d3 || is_trezor2_bl d3) = false :=
    (classify_eq_unsupported_iff d3).1 h3
  simp [WebUsbTransport.enumerate, hb1, h1b, h1c, hb2, h2b, hb3]

/-- A supported descriptor exposing a non-vendor-specific (HID, class 3)
interface 0. -/
def devHid : USBDevice :=
  { vendorId := 0x534c, productId := 0x0001, busNumber := 7,
    portNumberList := [3], settingClass := 3,
    productProbe := .ok "TREZOR" }

/-- A descriptor with an unsupported VID/PID pair. -/
def devAlien : USBDevice :=
  { vendorId := 0x1234, productId := 0x5678, busNumber := 7,
    portNumberList := [4], settingClass := LIBUSB_CLASS_VENDOR_SPEC,
    productProbe := .ok "OTHER" }

/-- Witness for C7 at the three concrete descriptors of the scenario. -/
theorem enumerate_filters_witness :
    WebUsbTransport.enumerate gpA [devT1, devHid, devAlien] =
      .ok [WebUsbTransport.init gpA devT1 none false] :=
  enumerate_filters gpA devT1 devHid devAlien "TREZOR"
    (by decide) (by decide) rfl (by decide) (by decide) (by decide)

/-- The spec-side reading of the path format: each port number appended as
a colon-prefixed decimal component. -/
def portsSuffix : List Nat → String
  | [] => ""
  | p :: ps => ":" ++ toString p ++ portsSuffix ps

/-- Colon-joining a head string with the printed port numbers equals the
head followed by the colon-prefixed components. -/
lemma colonJoin_toString (ps : List Nat) : ∀ x : String,
    colonJoin (x :: ps.map toString) = x ++ portsSuffix ps := by
  induction ps with
  | nil => intro x; simp [colonJoin, portsSuffix, String.append_empty]
  | cons p ps ih =>
      intro x
      have hstep : colonJoin (x :: toString p :: ps.map toString) =
          x ++ ":" ++ colonJoin (toString p :: ps.map toString) := rfl
      rw [List.map_cons, hstep, ih (toString p)]
      simp [portsSuffix, String.append_assoc]

set_option maxRecDepth 10000 in
lemma format03_length_fin : ∀ b : Fin 1000, (format03 b.val).length = 3 := by
  decide

/-- C8: the transport path is the prefix webusb, a colon, the zero-padded
bus number, then each port number in descriptor order as a colon-prefixed
component; the padded bus number has exactly 3 digits for bus numbers below
1000.  `get_path` is a function of the descriptor, hence deterministic. -/
theorem get_path_spec (t : WebUsbTransport) :
    t.get_path = "webusb" ++ ":" ++ format03 t.device.busNumber ++
      portsSuffix t.device.portNumberList ∧
    (t.device.busNumber < 1000 →
      (format03 t.device.busNumber).length = 3) := by
  constructor
  · unfold WebUsbTransport.get_path dev_to_str
    rw [colonJoin_toString]
    simp [String.append_assoc]
  · intro hb
    exact format03_length_fin ⟨t.device.busNumber, hb⟩

/-- A concrete Transport over `devT1` (bus 7, ports [2, 1]). -/
def transportT1 : WebUsbTransport := WebUsbTransport.init gpA devT1 none false

/-- Witness for C8: the descriptor with bus number 7 and port path [2, 1]
yields the path webusb:007:2:1. -/
theorem get_path_spec_witness :
    transportT1.get_path = "webusb" ++ ":" ++ format03 7 ++ portsSuffix [2, 1] ∧
    transportT1.get_path = "webusb:007:2:1" ∧
    (7 : Nat) < 1000 ∧ (format03 7).length = 3 :=
  ⟨(get_path_spec transportT1).1, by decide, by decide,
   (get_path_spec transportT1).2 (by decide)⟩

/-- C9: `find_debug` is a pure function of the receiver returning a new
Transport: on protocol VERSION at least 2 the result shares the receiver
Chunk Handle instance; on VERSION 1 the result carries a freshly
constructed, unopened Chunk Handle selecting the Debug interface and
endpoint, distinct from the receiver handle whenever that one selects the
normal interface; in both cases the device is the receiver device. -/
theorem find_debug_spec (gp : GetProtocol) (t : WebUsbTransport) :
    (t.protocol.VERSION ≥ 2 →
      t.find_debug gp = WebUsbTransport.init gp t.device (some t.handle) false ∧
      (t.find_debug gp).handle = t.handle) ∧
    (t.protocol.VERSION = 1 →
      t.find_debug gp = WebUsbTransport.init gp t.device none true ∧
      (t.find_debug gp).handle = WebUsbHandle.init t.device true ∧
      (t.find_debug gp).handle.interface = DEBUG_INTERFACE ∧
      (t.find_debug gp).handle.endpoint = DEBUG_ENDPOINT ∧
      (t.find_debug gp).handle.handle = none ∧
      (t.handle.interface = INTERFACE →
        (t.find_debug gp).handle ≠ t.handle)) ∧
    (t.find_debug gp).device = t.device := by
  refine ⟨fun hv => ?_, fun hv => ?_, ?_⟩
  · unfold WebUsbTransport.find_debug
    rw [if_pos hv]
    exact ⟨rfl, rfl⟩
  · have hlt : ¬ t.protocol.VERSION ≥ 2 := by omega
    unfold WebUsbTransport.find_debug
    rw [if_neg hlt]
    refine ⟨rfl, rfl, rfl, rfl, rfl, fun hiface heq => ?_⟩
    have h1 : (WebUsbTransport.init gp t.device none true).handle.interface =
        DEBUG_INTERFACE := rfl
    rw [heq, hiface] at h1
    exact absurd h1 (by decide)
  · by_cases hv : t.protocol.VERSION ≥ 2 <;>
      unfold WebUsbTransport.find_debug
    · rw [if_pos hv]; rfl
    · rw [if_neg hv]; rfl

/-- A concrete Transport whose protocol negotiated VERSION 2. -/
def transportV2 : WebUsbTransport :=
  { device := devT1, handle := handleOpenT1, debug := false, protocol := ⟨2⟩ }

/-- A concrete Transport whose protocol negotiated VERSION 1. -/
def transportV1 : WebUsbTransport :=
  { device := devT1, handle := handleOpenT1, debug := false, protocol := ⟨1⟩ }

/-- Witness for C9 at concrete VERSION 2 and VERSION 1 transports. -/
theorem find_debug_spec_witness :
    (transportV2.find_debug gpA).handle = transportV2.handle ∧
    (transportV1.find_debug gpA).handle =
      WebUsbHandle.init transportV1.device true ∧
    (transportV1.find_debug gpA).handle ≠ transportV1.handle ∧
    (transportV1.find_debug gpA).device = transportV1.device :=
  ⟨((find_debug_spec gpA transportV2).1 (by decide)).2,
   ((find_debug_spec gpA transportV1).2.1 rfl).2.1,
   ((find_debug_spec gpA transportV1).2.1 rfl).2.2.2.2.2 rfl,
   (find_debug_spec gpA transportV1).2.2⟩

end WebUsb
